import Mathlib

/-!
Shallow embedding of the CloakBrowser session manager
(`src/api/session_manager.py` and the session router
`src/api/routers/sessions.py`).

Python dicts keyed by id strings are modelled as association lists with
a `dinsert` that replaces in place (Python `d[k] = v`) and a `derase`
that drops the entry (Python `del d[k]` / `d.pop(k, None)`).  Wall-clock
reads (`time.time()`) become explicit `now : Nat` parameters.  The
external driver collaborator (playwright) is modelled by recording, on
each live handle, the outcome the driver would give to the close / title
calls the manager makes on it.
-/

namespace CloakBrowser

/-- Error kinds named by the API surface.  `capacityExceeded` is the
`RuntimeError` of `create_session`, `sessionNotFound` / `pageNotFound`
are the `KeyError`s of `get_session` / `get_page`, `launchFailed` is a
driver-launch exception, `driverError` is any exception raised by a
driver call such as `page.close()`.  `sessionClosed` appears in the
spec's taxonomy and is included so claims about it are statable. -/
inductive Err where
  | capacityExceeded
  | launchFailed
  | sessionNotFound
  | pageNotFound
  | sessionClosed
  | driverError
deriving DecidableEq, Repr

/-- Decidable equality for `Except`, needed to derive it for the task
states below. -/
instance instDecEqExcept {ε α : Type} [DecidableEq ε] [DecidableEq α] :
    DecidableEq (Except ε α)
  | Except.error e, Except.error f =>
    if h : e = f then Decidable.isTrue (by rw [h])
    else Decidable.isFalse (fun hh => h (Except.error.inj hh))
  | Except.error _, Except.ok _ => Decidable.isFalse (fun hh => Except.noConfusion hh)
  | Except.ok _, Except.error _ => Decidable.isFalse (fun hh => Except.noConfusion hh)
  | Except.ok a, Except.ok b =>
    if h : a = b then Decidable.isTrue (by rw [h])
    else Decidable.isFalse (fun hh => h (Except.ok.inj hh))

/-- Association-list lookup, Python `d[k]` / `k in d`. -/
def dlookup {α : Type} (k : String) : List (String × α) → Option α
  | [] => none
  | (k', v) :: rest => if k' = k then some v else dlookup k rest

/-- Association-list insert, Python `d[k] = v`: replaces in place if the
key is present, appends otherwise. -/
def dinsert {α : Type} (k : String) (v : α) : List (String × α) → List (String × α)
  | [] => [(k, v)]
  | (k', v') :: rest => if k' = k then (k, v) :: rest else (k', v') :: dinsert k v rest

/-- Association-list delete, Python `del d[k]` / `d.pop(k, None)`. -/
def derase {α : Type} (k : String) : List (String × α) → List (String × α)
  | [] => []
  | (k', v') :: rest => if k' = k then rest else (k', v') :: derase k rest

/-- In-place update of one entry, Python `d[k].field = ...`. -/
def dmodify {α : Type} (k : String) (f : α → α) : List (String × α) → List (String × α)
  | [] => []
  | (k', v) :: rest => if k' = k then (k', f v) :: rest else (k', v) :: dmodify k f rest

/-- The key list of an association list (Python `d.keys()`). -/
def keys {α : Type} (l : List (String × α)) : List String := l.map Prod.fst

/-- Viewport configuration (`{"width": ..., "height": ...}`). -/
structure Viewport where
  width : Nat
  height : Nat
deriving DecidableEq, Repr

/-- `PageInfo` dataclass: metadata about an open page/tab. -/
structure PageInfo where
  page_id : String
  url : String
  title : String
  created_at : Nat
deriving DecidableEq, Repr

/-- `SessionInfo` dataclass: metadata about a browser session. -/
structure SessionInfo where
  session_id : String
  created_at : Nat
  last_used : Nat
  proxy : Option String
  user_agent : Option String
  viewport : Option Viewport
  locale : Option String
  timezone_id : Option String
  pages : List (String × PageInfo)
deriving DecidableEq, Repr

/-- A live playwright page handle.  `url` is the driver's current url
for the page; `titleResult` is the outcome the driver gives to
`page.title()` — `some t` a successful read, `none` an exception (the
code swallows it); `closeFails` says whether `page.close()` raises. -/
structure Page where
  url : String
  titleResult : Option String
  closeFails : Bool
deriving DecidableEq, Repr

/-- A live driver resource (`self._pw`, `self._browser`,
`self._context`): all the manager does with one is close it, so only
the close outcome is recorded. -/
structure Handle where
  closeFails : Bool
deriving DecidableEq, Repr

/-- `BrowserSession`: live browser + context + pages for one session.
`_pw` / `_browser` / `_context` are `None` until `initialize` sets
them; `_pages` maps page id to the live page handle. -/
structure BrowserSession where
  session_id : String
  info : SessionInfo
  _pw : Option Handle
  _browser : Option Handle
  _context : Option Handle
  _pages : List (String × Page)
deriving DecidableEq, Repr

/-- `BrowserSession.new_page`: the driver-created page and the fresh
uuid-derived page id are external inputs, so they are parameters; `now`
is the `time.time()` read.  Stores the live handle, stores a
`PageInfo` with url read from the handle and empty title, updates
`last_used`, returns the page id. -/
def BrowserSession.new_page (s : BrowserSession) (page : Page) (page_id : String)
    (now : Nat) : BrowserSession × String :=
  ({ s with
      _pages := dinsert page_id page s._pages,
      info := { s.info with
                  pages := dinsert page_id ⟨page_id, page.url, "", now⟩ s.info.pages,
                  last_used := now } },
   page_id)

/-- `BrowserSession.get_page`: raises `KeyError` if the page id is not
in `_pages`. -/
def BrowserSession.get_page (s : BrowserSession) (page_id : String) : Except Err Page :=
  match dlookup page_id s._pages with
  | none => Except.error Err.pageNotFound
  | some p => Except.ok p

/-- `BrowserSession.close_page`: `get_page` (may raise `KeyError`), then
`await page.close()` — NOT guarded, so a driver failure propagates and
aborts the method before the two deletions — then `del
self._pages[page_id]` and `self.info.pages.pop(page_id, None)`.  The
returned session is the state of `self` when the method ends, normally
or by exception. -/
def BrowserSession.close_page (s : BrowserSession) (page_id : String) :
    BrowserSession × Except Err Unit :=
  match dlookup page_id s._pages with
  | none => (s, Except.error Err.pageNotFound)
  | some p =>
    if p.closeFails then (s, Except.error Err.driverError)
    else ({ s with
              _pages := derase page_id s._pages,
              info := { s.info with pages := derase page_id s.info.pages } },
          Except.ok ())

/-- A teardown step of `BrowserSession.close`. -/
inductive Step where
  | page (page_id : String)
  | context
  | browser
  | pw
deriving DecidableEq, Repr

/-- The page loop of `BrowserSession.close`: each `page.close()` is
attempted inside its own `try/except Exception: pass`, so every page is
attempted and only the failures are recorded. -/
def closePages : List (String × Page) → List Step × List Step
  | [] => ([], [])
  | (pid, p) :: rest =>
    let r := closePages rest
    (Step.page pid :: r.1, if p.closeFails then Step.page pid :: r.2 else r.2)

/-- One `if self._h: try: close except Exception: pass` block of
`BrowserSession.close`. -/
def closeHandle (st : Step) (h : Option Handle) : List Step × List Step :=
  match h with
  | none => ([], [])
  | some hh => ([st], if hh.closeFails then [st] else [])

/-- Result of `BrowserSession.close`: the post state, the steps that
were attempted, and the subset whose driver call raised (each swallowed
by its own `except Exception: pass`).  The method's return type is not
`Except`: with every driver call individually guarded and an outer
`try/except Exception` besides, `close` always returns normally. -/
structure CloseResult where
  state : BrowserSession
  attempted : List Step
  failed : List Step
deriving DecidableEq, Repr

/-- `BrowserSession.close`: close every page (each guarded), clear
`_pages`, then close context, browser, playwright — each only if set,
each guarded.  `_pw` / `_browser` / `_context` are not reset to `None`,
and `info` (including `info.pages`) is left untouched. -/
def BrowserSession.close (s : BrowserSession) : CloseResult :=
  let rp := closePages s._pages
  let rc := closeHandle Step.context s._context
  let rb := closeHandle Step.browser s._browser
  let rw := closeHandle Step.pw s._pw
  { state := { s with _pages := [] },
    attempted := rp.1 ++ rc.1 ++ rb.1 ++ rw.1,
    failed := rp.2 ++ rc.2 ++ rb.2 ++ rw.2 }

/-- `BrowserSession.update_page_info`: `get_page` first (a `KeyError`
propagates before anything is written), then — if the record exists —
url is overwritten from the live handle unconditionally while the
`page.title()` read is wrapped in `try/except: pass` so a failure keeps
the previous title; `last_used` is then set unconditionally. -/
def BrowserSession.update_page_info (s : BrowserSession) (page_id : String)
    (now : Nat) : BrowserSession × Except Err Unit :=
  match dlookup page_id s._pages with
  | none => (s, Except.error Err.pageNotFound)
  | some p =>
    let info1 :=
      if (dlookup page_id s.info.pages).isSome then
        { s.info with
            pages := dmodify page_id (fun r =>
              { r with
                  url := p.url,
                  title := match p.titleResult with
                           | some t => t
                           | none => r.title }) s.info.pages }
      else s.info
    ({ s with info := { info1 with last_used := now } }, Except.ok ())

/-- `SessionManager`: the registry mapping session id to
`BrowserSession`, with the two configuration knobs.  The
`asyncio.Lock` is not a datum; it shows up as the atomicity of the
steps of the interleaving executors below. -/
structure SessionManager where
  sessions : List (String × BrowserSession)
  max_sessions : Nat
  session_ttl : Nat
deriving DecidableEq, Repr

/-- The admission check `create_session` performs under the lock:
`if len(self._sessions) >= self.max_sessions: raise RuntimeError`. -/
def admission_check (m : SessionManager) : Except Err Unit :=
  if m.max_sessions ≤ m.sessions.length then Except.error Err.capacityExceeded
  else Except.ok ()

/-- The `BrowserSession` built by `create_session` after a successful
`initialize`: `SessionInfo` defaults set `created_at` and `last_used`
to the construction time, `pages` empty; `initialize` has set all three
driver handles. -/
def fresh_session (sid : String) (now : Nat) (proxy user_agent : Option String)
    (viewport : Option Viewport) (locale timezone_id : Option String) : BrowserSession :=
  { session_id := sid,
    info := { session_id := sid, created_at := now, last_used := now,
              proxy := proxy, user_agent := user_agent, viewport := viewport,
              locale := locale, timezone_id := timezone_id, pages := [] },
    _pw := some ⟨false⟩, _browser := some ⟨false⟩, _context := some ⟨false⟩,
    _pages := [] }

/-- The second locked section of `create_session`:
`self._sessions[session_id] = session`, with no re-check of capacity. -/
def registry_insert (m : SessionManager) (sid : String) (s : BrowserSession) :
    SessionManager :=
  { m with sessions := dinsert sid s m.sessions }

/-- `SessionManager.create_session` run without interleaving: admission
check, then the driver launch (`launchOk` is the driver's outcome; the
uuid `sid` and the clock `now` are external inputs), then the insert.
On any failure the exception propagates and the registry is the
returned, unchanged one. -/
def create_session (m : SessionManager) (launchOk : Bool) (sid : String) (now : Nat)
    (proxy user_agent : Option String) (viewport : Option Viewport)
    (locale timezone_id : Option String) : SessionManager × Except Err String :=
  match admission_check m with
  | Except.error e => (m, Except.error e)
  | Except.ok _ =>
    if launchOk then
      (registry_insert m sid (fresh_session sid now proxy user_agent viewport locale timezone_id),
       Except.ok sid)
    else (m, Except.error Err.launchFailed)

/-- `SessionManager.get_session`: raises `KeyError` when absent. -/
def get_session (m : SessionManager) (sid : String) : Except Err BrowserSession :=
  match dlookup sid m.sessions with
  | none => Except.error Err.sessionNotFound
  | some s => Except.ok s

/-- `SessionManager.close_session`: pop under the lock, then — only if
the pop returned a session — run its teardown.  The returned `Bool`
records whether the teardown (`session.close()`) ran; in either case
the method returns normally, it reports nothing when the id was
absent. -/
def close_session (m : SessionManager) (sid : String) : SessionManager × Bool :=
  match dlookup sid m.sessions with
  | none => (m, false)
  | some _ => ({ m with sessions := derase sid m.sessions }, true)

/-- The snapshot phase of `_cleanup_idle_sessions`, run under the lock:
collect the ids with `now - session.info.last_used > self.session_ttl`. -/
def cleanup_flag (m : SessionManager) (now : Nat) : List String :=
  keys (m.sessions.filter (fun e => m.session_ttl < now - e.2.info.last_used))

/-- The close phase of `_cleanup_idle_sessions`, run after the lock is
released: `close_session` on each flagged id, with no re-check of
`last_used`. -/
def cleanup_close (m : SessionManager) (flagged : List String) : SessionManager :=
  flagged.foldl (fun acc sid => (close_session acc sid).1) m

/-- `SessionManager._cleanup_idle_sessions` run without interleaving. -/
def cleanup_idle_sessions (m : SessionManager) (now : Nat) : SessionManager :=
  cleanup_close m (cleanup_flag m now)

/-- The control point of one in-flight `create_session` call.  The call
holds the lock only inside `create_check` and `create_finish`; between
them it is `launching` with the lock released. -/
inductive CreateTask where
  | toCheck (launchOk : Bool) (sid : String) (now : Nat)
  | launching (launchOk : Bool) (sid : String) (now : Nat)
  | done (result : Except Err String)
deriving DecidableEq, Repr

/-- First locked section of `create_session`: the capacity check and
the uuid generation; then the lock is released for the launch. -/
def create_check (m : SessionManager) (t : CreateTask) : SessionManager × CreateTask :=
  match t with
  | CreateTask.toCheck ok sid now =>
    (match admission_check m with
     | Except.error e => (m, CreateTask.done (Except.error e))
     | Except.ok _ => (m, CreateTask.launching ok sid now))
  | t' => (m, t')

/-- The launch outcome plus the second locked section of
`create_session`: a failed launch propagates without touching the
registry; a successful one inserts unconditionally. -/
def create_finish (m : SessionManager) (t : CreateTask) : SessionManager × CreateTask :=
  match t with
  | CreateTask.launching ok sid now =>
    if ok then
      (registry_insert m sid (fresh_session sid now none none none none none),
       CreateTask.done (Except.ok sid))
    else (m, CreateTask.done (Except.error Err.launchFailed))
  | t' => (m, t')

/-- Two concurrent `create_session` calls sharing one manager. -/
structure CBurst where
  mgr : SessionManager
  taskA : CreateTask
  taskB : CreateTask
deriving DecidableEq, Repr

/-- Scheduler events for the two-call burst: each event is one locked
section of one call. -/
inductive CEv where
  | checkA
  | finishA
  | checkB
  | finishB
deriving DecidableEq, Repr

/-- One scheduler step of the two-call burst. -/
def cstep (st : CBurst) : CEv → CBurst
  | CEv.checkA => let r := create_check st.mgr st.taskA
                  { st with mgr := r.1, taskA := r.2 }
  | CEv.finishA => let r := create_finish st.mgr st.taskA
                   { st with mgr := r.1, taskA := r.2 }
  | CEv.checkB => let r := create_check st.mgr st.taskB
                  { st with mgr := r.1, taskB := r.2 }
  | CEv.finishB => let r := create_finish st.mgr st.taskB
                   { st with mgr := r.1, taskB := r.2 }

/-- Run a schedule of burst events. -/
def crun (evs : List CEv) (st : CBurst) : CBurst := evs.foldl cstep st

/-- State of the reaper executor: the shared manager plus the `to_close`
list the reaper computed at its snapshot. -/
structure RState where
  mgr : SessionManager
  flagged : List String
deriving DecidableEq, Repr

/-- Events interleaving one reaper tick with a page operation:
`snapshot now` is the locked `to_close` collection, `touch` is a
concurrent caller running `update_page_info` on a session's page (any
page operation; they all set `last_used`), `reap` is the close phase on
the flagged ids. -/
inductive REv where
  | snapshot (now : Nat)
  | touch (sid page_id : String) (now : Nat)
  | reap
deriving DecidableEq, Repr

/-- One step of the reaper executor. -/
def rstep (st : RState) : REv → RState
  | REv.snapshot now => { st with flagged := cleanup_flag st.mgr now }
  | REv.touch sid page_id now =>
    match dlookup sid st.mgr.sessions with
    | some s =>
      { st with mgr := { st.mgr with
          sessions := dinsert sid (s.update_page_info page_id now).1 st.mgr.sessions } }
    | none => st
  | REv.reap => { mgr := cleanup_close st.mgr st.flagged, flagged := [] }

/-- Run a schedule of reaper events. -/
def rrun (evs : List REv) (st : RState) : RState := evs.foldl rstep st

/-- The control point of one in-flight `DELETE /sessions/{id}` handler
(`src/api/routers/sessions.py`): it first validates existence with
`get_session` (404 on `KeyError`), then calls
`manager.close_session` and answers success unconditionally. -/
inductive DTask where
  | start
  | validated
  | done (result : Except Err Unit)
deriving DecidableEq, Repr

/-- The validation step of the close endpoint. -/
def dvalidate (m : SessionManager) (sid : String) (t : DTask) : DTask :=
  match t with
  | DTask.start =>
    match get_session m sid with
    | Except.error _ => DTask.done (Except.error Err.sessionNotFound)
    | Except.ok _ => DTask.validated
  | t' => t'

/-- The close step of the close endpoint: `close_session` then a 200
response, whatever the pop found.  Returns the manager, how many
teardowns this step ran, and the new task state. -/
def dclose (m : SessionManager) (sid : String) (t : DTask) :
    SessionManager × Nat × DTask :=
  match t with
  | DTask.validated =>
    let r := close_session m sid
    (r.1, if r.2 then 1 else 0, DTask.done (Except.ok ()))
  | t' => (m, 0, t')

/-- Two concurrent close endpoints racing on the same session id. -/
structure DState where
  mgr : SessionManager
  teardowns : Nat
  taskA : DTask
  taskB : DTask
deriving DecidableEq, Repr

/-- Scheduler events for the close race. -/
inductive DEv where
  | valA
  | closeA
  | valB
  | closeB
deriving DecidableEq, Repr

/-- One scheduler step of the close race on session id `sid`. -/
def dstep (sid : String) (st : DState) : DEv → DState
  | DEv.valA => { st with taskA := dvalidate st.mgr sid st.taskA }
  | DEv.closeA =>
    let r := dclose st.mgr sid st.taskA
    { st with mgr := r.1, teardowns := st.teardowns + r.2.1, taskA := r.2.2 }
  | DEv.valB => { st with taskB := dvalidate st.mgr sid st.taskB }
  | DEv.closeB =>
    let r := dclose st.mgr sid st.taskB
    { st with mgr := r.1, teardowns := st.teardowns + r.2.1, taskB := r.2.2 }

/-- Run a schedule of close-race events. -/
def drun (sid : String) (evs : List DEv) (st : DState) : DState :=
  evs.foldl (dstep sid) st

/-- A page operation on one `BrowserSession`, for sequences of
operations: the arguments carry the external inputs (driver page, uuid,
clock). -/
inductive SOp where
  | newPage (pg : Page) (page_id : String) (now : Nat)
  | closePage (page_id : String)
  | updateInfo (page_id : String) (now : Nat)
deriving DecidableEq, Repr

/-- Apply one page operation; an operation that raises leaves the
session as the method left it (for `close_page` and
`update_page_info` the exception fires before any write). -/
def apply_op (s : BrowserSession) : SOp → BrowserSession
  | SOp.newPage pg page_id now => (s.new_page pg page_id now).1
  | SOp.closePage page_id => (s.close_page page_id).1
  | SOp.updateInfo page_id now => (s.update_page_info page_id now).1

/-- Apply a sequence of page operations. -/
def run_ops (s : BrowserSession) (ops : List SOp) : BrowserSession :=
  ops.foldl apply_op s

/-! ### Concrete fixtures used by counterexamples and witnesses -/

/-- A live page whose driver calls all succeed. -/
def page_ok : Page :=
  { url := "https://example.com/a", titleResult := some "Example", closeFails := false }

/-- A live page whose `close()` and `title()` driver calls raise. -/
def page_bad : Page :=
  { url := "https://example.com/b", titleResult := none, closeFails := true }

/-- Record for `page_ok` as `new_page` would have created it. -/
def pinfo_a : PageInfo :=
  { page_id := "p1", url := "about:blank", title := "", created_at := 3 }

/-- Record for `page_bad` as `new_page` would have created it. -/
def pinfo_b : PageInfo :=
  { page_id := "p2", url := "about:blank", title := "old", created_at := 3 }

/-- A ready session with two open pages. -/
def demo_session : BrowserSession :=
  { session_id := "s1",
    info := { session_id := "s1", created_at := 3, last_used := 5,
              proxy := none, user_agent := none, viewport := none,
              locale := none, timezone_id := none,
              pages := [("p1", pinfo_a), ("p2", pinfo_b)] },
    _pw := some ⟨false⟩, _browser := some ⟨false⟩, _context := some ⟨false⟩,
    _pages := [("p1", page_ok), ("p2", page_bad)] }

/-- A session that has sat unused since time 0. -/
def idle_session : BrowserSession :=
  { session_id := "s1",
    info := { session_id := "s1", created_at := 0, last_used := 0,
              proxy := none, user_agent := none, viewport := none,
              locale := none, timezone_id := none,
              pages := [("p1", pinfo_a)] },
    _pw := some ⟨false⟩, _browser := some ⟨false⟩, _context := some ⟨false⟩,
    _pages := [("p1", page_ok)] }

/-- A registry holding only `idle_session`, TTL 10 seconds. -/
def idle_mgr : SessionManager :=
  { sessions := [("s1", idle_session)], max_sessions := 10, session_ttl := 10 }

/-- Initial state of the two-call create burst: empty registry,
`max_sessions = 1`, both launches destined to succeed. -/
def c1_init : CBurst :=
  { mgr := { sessions := [], max_sessions := 1, session_ttl := 3600 },
    taskA := CreateTask.toCheck true "a" 0,
    taskB := CreateTask.toCheck true "b" 0 }

/-- Initial state of the close race: one registered session, both
endpoints yet to validate. -/
def d8_init : DState :=
  { mgr := { sessions := [("s1", demo_session)], max_sessions := 10, session_ttl := 3600 },
    teardowns := 0, taskA := DTask.start, taskB := DTask.start }

/-! ### Association-list lemmas -/

theorem keys_cons {α : Type} (k : String) (v : α) (l : List (String × α)) :
    keys ((k, v) :: l) = k :: keys l := rfl

theorem dlookup_mem_keys {α : Type} {k : String} {v : α} :
    ∀ {l : List (String × α)}, dlookup k l = some v → k ∈ keys l := by
  intro l
  induction l with
  | nil => intro h; exact absurd h (by simp [dlookup])
  | cons e rest ih =>
    obtain ⟨k', v'⟩ := e
    intro h
    rw [keys_cons]
    by_cases hk : k' = k
    · exact hk ▸ List.mem_cons_self k' (keys rest)
    · rw [dlookup, if_neg hk] at h
      exact List.mem_cons_of_mem k' (ih h)

theorem dlookup_of_mem_nodup {α : Type} {k : String} {v : α} :
    ∀ {l : List (String × α)}, (keys l).Nodup → (k, v) ∈ l → dlookup k l = some v := by
  intro l
  induction l with
  | nil => intro _ h; exact absurd h (List.not_mem_nil (k, v))
  | cons e rest ih =>
    obtain ⟨k', v'⟩ := e
    intro hnd hmem
    rw [keys_cons] at hnd
    obtain ⟨hhead, htl⟩ := List.nodup_cons.mp hnd
    rcases List.mem_cons.mp hmem with heq | htail
    · obtain ⟨h1, h2⟩ := Prod.mk.injEq .. ▸ heq
      rw [dlookup, if_pos h1.symm, h2]
    · have hkmem : k ∈ keys rest := List.mem_map_of_mem Prod.fst htail
      have hk : k' ≠ k := fun hke => hhead (hke ▸ hkmem)
      rw [dlookup, if_neg hk]
      exact ih htl htail

theorem mem_keys_derase_of_ne {α : Type} {k' k : String} (hne : k' ≠ k) :
    ∀ {l : List (String × α)}, k' ∈ keys l → k' ∈ keys (derase k l) := by
  intro l
  induction l with
  | nil => intro h; exact absurd h (List.not_mem_nil k')
  | cons e rest ih =>
    obtain ⟨k0, v0⟩ := e
    intro h
    rw [keys_cons] at h
    rcases List.mem_cons.mp h with h1 | h2
    · have hk0 : k0 ≠ k := fun hc => hne (h1.trans hc)
      rw [derase, if_neg hk0, keys_cons]
      exact h1 ▸ List.mem_cons_self k' _
    · by_cases hk0 : k0 = k
      · rw [derase, if_pos hk0]; exact h2
      · rw [derase, if_neg hk0, keys_cons]
        exact List.mem_cons_of_mem k0 (ih h2)

theorem derase_length_of_dlookup {α : Type} {k : String} {v : α} :
    ∀ {l : List (String × α)}, dlookup k l = some v →
      l.length = (derase k l).length + 1 := by
  intro l
  induction l with
  | nil => intro h; exact absurd h (by simp [dlookup])
  | cons e rest ih =>
    obtain ⟨k', v'⟩ := e
    intro h
    by_cases hk : k' = k
    · rw [derase, if_pos hk]; rfl
    · rw [dlookup, if_neg hk] at h
      rw [derase, if_neg hk, List.length_cons, List.length_cons, ih h]

theorem keys_dmodify {α : Type} (k : String) (f : α → α) :
    ∀ l : List (String × α), keys (dmodify k f l) = keys l := by
  intro l
  induction l with
  | nil => rfl
  | cons e rest ih =>
    obtain ⟨k', v'⟩ := e
    by_cases hk : k' = k
    · rw [dmodify, if_pos hk, keys_cons, keys_cons]
    · rw [dmodify, if_neg hk, keys_cons, keys_cons, ih]

theorem keys_dinsert_congr {α β : Type} (k : String) (v : α) (w : β) :
    ∀ (l1 : List (String × α)) (l2 : List (String × β)), keys l1 = keys l2 →
      keys (dinsert k v l1) = keys (dinsert k w l2) := by
  intro l1
  induction l1 with
  | nil =>
    intro l2 h
    cases l2 with
    | nil => rfl
    | cons e r => exact absurd h (by obtain ⟨a, b⟩ := e; rw [keys_cons]; simp [keys])
  | cons e rest ih =>
    obtain ⟨k1, v1⟩ := e
    intro l2 h
    cases l2 with
    | nil => exact absurd h (by rw [keys_cons]; simp [keys])
    | cons e2 r2 =>
      obtain ⟨k2, v2⟩ := e2
      rw [keys_cons, keys_cons] at h
      obtain ⟨h1, h2⟩ : k1 = k2 ∧ keys rest = keys r2 := by
        constructor
        · exact (List.cons.injEq .. ▸ h).1
        · exact (List.cons.injEq .. ▸ h).2
      by_cases hk : k1 = k
      · rw [dinsert, if_pos hk, dinsert, if_pos (h1 ▸ hk), keys_cons, keys_cons, h2]
      · rw [dinsert, if_neg hk, dinsert, if_neg (h1 ▸ hk), keys_cons, keys_cons, h1,
            ih r2 h2]

theorem keys_derase_congr {α β : Type} (k : String) :
    ∀ (l1 : List (String × α)) (l2 : List (String × β)), keys l1 = keys l2 →
      keys (derase k l1) = keys (derase k l2) := by
  intro l1
  induction l1 with
  | nil =>
    intro l2 h
    cases l2 with
    | nil => rfl
    | cons e r => exact absurd h (by obtain ⟨a, b⟩ := e; rw [keys_cons]; simp [keys])
  | cons e rest ih =>
    obtain ⟨k1, v1⟩ := e
    intro l2 h
    cases l2 with
    | nil => exact absurd h (by rw [keys_cons]; simp [keys])
    | cons e2 r2 =>
      obtain ⟨k2, v2⟩ := e2
      rw [keys_cons, keys_cons] at h
      obtain ⟨h1, h2⟩ : k1 = k2 ∧ keys rest = keys r2 := by
        constructor
        · exact (List.cons.injEq .. ▸ h).1
        · exact (List.cons.injEq .. ▸ h).2
      by_cases hk : k1 = k
      · rw [derase, if_pos hk, derase, if_pos (h1 ▸ hk)]; exact h2
      · rw [derase, if_neg hk, derase, if_neg (h1 ▸ hk), keys_cons, keys_cons, h1,
            ih r2 h2]

theorem dlookup_dinsert_self {α : Type} (k : String) (v : α) :
    ∀ l : List (String × α), dlookup k (dinsert k v l) = some v := by
  intro l
  induction l with
  | nil => simp [dinsert, dlookup]
  | cons e rest ih =>
    obtain ⟨k', v'⟩ := e
    by_cases hk : k' = k
    · rw [dinsert, if_pos hk, dlookup, if_pos rfl]
    · rw [dinsert, if_neg hk, dlookup, if_neg hk, ih]

theorem dlookup_dmodify_self {α : Type} {k : String} {v : α} (f : α → α) :
    ∀ {l : List (String × α)}, dlookup k l = some v →
      dlookup k (dmodify k f l) = some (f v) := by
  intro l
  induction l with
  | nil => intro h; exact absurd h (by simp [dlookup])
  | cons e rest ih =>
    obtain ⟨k', v'⟩ := e
    intro h
    by_cases hk : k' = k
    · rw [dlookup, if_pos hk] at h
      rw [dmodify, if_pos hk, dlookup, if_pos hk, Option.some.inj h]
    · rw [dlookup, if_neg hk] at h
      rw [dmodify, if_neg hk, dlookup, if_neg hk]
      exact ih h

theorem dlookup_eq_none_of_not_mem_keys {α : Type} {k : String}
    {l : List (String × α)} (h : k ∉ keys l) : dlookup k l = none := by
  cases hq : dlookup k l with
  | none => rfl
  | some v => exact absurd (dlookup_mem_keys hq) h

theorem dlookup_derase_self_of_nodup {α : Type} {k : String} :
    ∀ {l : List (String × α)}, (keys l).Nodup → dlookup k (derase k l) = none := by
  intro l
  induction l with
  | nil => intro _; rfl
  | cons e rest ih =>
    obtain ⟨k', v'⟩ := e
    intro hnd
    rw [keys_cons] at hnd
    obtain ⟨hhead, htl⟩ := List.nodup_cons.mp hnd
    by_cases hk : k' = k
    · rw [derase, if_pos hk]
      exact dlookup_eq_none_of_not_mem_keys (hk ▸ hhead)
    · rw [derase, if_neg hk, dlookup, if_neg hk]
      exact ih htl

/-! ### Claim theorems -/

/-- Claim C1.  The claim says the Registry never exceeds `max_sessions`
under concurrent `create_session` calls, with no transient overshoot
and the excess calls failing with CapacityExceeded.  The code instead
releases the lock between the capacity check and the insert, with no
reservation counter: with `max_sessions = 1`, two concurrent calls that
both pass the check before either inserts drive the registry to 2
entries and both callers observe success.  This evaluates the
interleaved `create_session` at that schedule. -/
theorem c1_concurrent_burst_overshoots :
    c1_init.mgr.max_sessions = 1 ∧
    (crun [CEv.checkA, CEv.checkB, CEv.finishA, CEv.finishB] c1_init).mgr.sessions.length = 2 ∧
    (crun [CEv.checkA, CEv.checkB, CEv.finishA, CEv.finishB] c1_init).taskA
      = CreateTask.done (Except.ok "a") ∧
    (crun [CEv.checkA, CEv.checkB, CEv.finishA, CEv.finishB] c1_init).taskB
      = CreateTask.done (Except.ok "b") := by
  decide

/-- Claim C2: when driver launch fails, `create_session` leaves the
registry exactly as it was (no partial entry), and — because capacity
is just `len(self._sessions)`, with no separate counter to leak — a
subsequent call with fewer than `max_sessions` live sessions passes
admission and inserts its session. -/
theorem c2_launch_failure_leaves_registry_and_capacity (m : SessionManager)
    (sid sid2 : String) (now now2 : Nat) (proxy user_agent : Option String)
    (viewport : Option Viewport) (locale timezone_id : Option String) :
    (create_session m false sid now proxy user_agent viewport locale timezone_id).1 = m ∧
    (m.sessions.length < m.max_sessions →
      (create_session m true sid2 now2 proxy user_agent viewport locale timezone_id).2
        = Except.ok sid2 ∧
      dlookup sid2
          (create_session m true sid2 now2 proxy user_agent viewport locale timezone_id).1.sessions
        = some (fresh_session sid2 now2 proxy user_agent viewport locale timezone_id)) := by
  constructor
  · unfold create_session admission_check
    by_cases h : m.max_sessions ≤ m.sessions.length <;> simp [h]
  · intro hlt
    have h : ¬ m.max_sessions ≤ m.sessions.length := Nat.not_le.mpr hlt
    unfold create_session admission_check
    simp [h, registry_insert, dlookup_dinsert_self]

/-- Witness for C2 at a concrete registry with spare capacity. -/
theorem c2_witness :
    (create_session ⟨[], 2, 3600⟩ false "sA" 7 none none none none none).1
      = (⟨[], 2, 3600⟩ : SessionManager) ∧
    (create_session ⟨[], 2, 3600⟩ true "sB" 8 none none none none none).2
      = Except.ok "sB" ∧
    dlookup "sB" (create_session ⟨[], 2, 3600⟩ true "sB" 8 none none none none none).1.sessions
      = some (fresh_session "sB" 8 none none none none none) := by
  have h := c2_launch_failure_leaves_registry_and_capacity
    ⟨[], 2, 3600⟩ "sA" "sB" 7 8 none none none none none
  exact ⟨h.1, (h.2 (by decide)).1, (h.2 (by decide)).2⟩

theorem closePages_fst : ∀ l : List (String × Page),
    (closePages l).1 = l.map (fun e => Step.page e.1) := by
  intro l
  induction l with
  | nil => rfl
  | cons e rest ih =>
    obtain ⟨pid, p⟩ := e
    simp [closePages, ih]

/-- Claim C3: for a session in any state — any pages, any subset of
handles present, any subset of driver close calls failing — `close`
attempts every page close, then context, then browser, then playwright
(each of the latter when present), in that order; the attempted list
does not depend on which steps fail, no failure aborts the cascade, and
`close` always returns normally (its type is not fallible), leaving the
page-handle map cleared and everything else as it was. -/
theorem c3_close_attempts_every_step (s : BrowserSession) :
    (BrowserSession.close s).attempted =
      (s._pages.map fun e => Step.page e.1) ++
      (if s._context.isSome then [Step.context] else []) ++
      (if s._browser.isSome then [Step.browser] else []) ++
      (if s._pw.isSome then [Step.pw] else []) ∧
    (BrowserSession.close s).state = { s with _pages := [] } := by
  constructor
  · cases hc : s._context <;> cases hb : s._browser <;> cases hw : s._pw <;>
      simp [BrowserSession.close, closeHandle, closePages_fst, hc, hb, hw]
  · rfl

/-- Counterexample to claim C4.  `close_page` does `await page.close()`
unguarded before its two deletions, so when the driver close raises the
method aborts: page "p2" of `demo_session` has a failing close, the
caller sees the error, and BOTH the `PageInfo` record and the live
handle are still present afterwards — the claim says the record is
removed regardless. -/
theorem c4_close_failure_keeps_record :
    (demo_session.close_page "p2").2 = Except.error Err.driverError ∧
    dlookup "p2" (demo_session.close_page "p2").1.info.pages = some pinfo_b ∧
    dlookup "p2" (demo_session.close_page "p2").1._pages = some page_bad := by
  decide

/-- Claim C4 as amended: the live-handle close failure is surfaced to
the caller as an error and aborts `close_page` before its deletions, so
the `PageRecord` and the live handle are removed exactly when the close
succeeds, and the session is untouched when it fails. -/
theorem c4_record_removed_only_on_successful_close (s : BrowserSession)
    (page_id : String) (p : Page)
    (hnd1 : (keys s._pages).Nodup) (hnd2 : (keys s.info.pages).Nodup)
    (hp : dlookup page_id s._pages = some p) :
    (p.closeFails = true →
      s.close_page page_id = (s, Except.error Err.driverError)) ∧
    (p.closeFails = false →
      (s.close_page page_id).2 = Except.ok () ∧
      dlookup page_id (s.close_page page_id).1._pages = none ∧
      dlookup page_id (s.close_page page_id).1.info.pages = none) := by
  constructor
  · intro hf
    unfold BrowserSession.close_page
    rw [hp]
    simp [hf]
  · intro hf
    unfold BrowserSession.close_page
    rw [hp]
    simp [hf, dlookup_derase_self_of_nodup hnd1, dlookup_derase_self_of_nodup hnd2]

/-- Witness for the amended C4 at `demo_session`: page "p1" closes
successfully and both entries are gone. -/
theorem c4_witness :
    (demo_session.close_page "p1").2 = Except.ok () ∧
    dlookup "p1" (demo_session.close_page "p1").1._pages = none ∧
    dlookup "p1" (demo_session.close_page "p1").1.info.pages = none :=
  (c4_record_removed_only_on_successful_close demo_session "p1" page_ok
    (by decide) (by decide) (by decide)).2 (by decide)

/-- Counterexample to claim C5.  The reaper snapshots `to_close` under
the lock, then closes each flagged id with no re-check of `last_used`:
`idle_session` (idle since 0, TTL 10) is flagged at the time-20
snapshot, a page operation then sets its `last_used` to 21, and the
reap still removes it — the claim says a session used after flagging is
not removed. -/
theorem c5_session_touched_after_flag_still_reaped :
    (rrun [REv.snapshot 20] ⟨idle_mgr, []⟩).flagged = ["s1"] ∧
    (dlookup "s1"
        (rrun [REv.snapshot 20, REv.touch "s1" "p1" 21] ⟨idle_mgr, []⟩).mgr.sessions).map
        (fun s => s.info.last_used) = some 21 ∧
    (rrun [REv.snapshot 20, REv.touch "s1" "p1" 21, REv.reap] ⟨idle_mgr, []⟩).mgr.sessions
      = [] := by
  decide

/-- Claim C5 as amended: only use that lands before the reaper's
snapshot protects a session — a session whose idle duration at snapshot
time is within the TTL is not flagged and survives the whole cleanup
pass; use after the snapshot does not prevent removal. -/
theorem c5_session_within_ttl_at_snapshot_survives (m : SessionManager)
    (sid : String) (s : BrowserSession) (now : Nat)
    (hnd : (keys m.sessions).Nodup)
    (hs : dlookup sid m.sessions = some s)
    (hfresh : now - s.info.last_used ≤ m.session_ttl) :
    sid ∈ keys (cleanup_idle_sessions m now).sessions := by
  have hmem : sid ∈ keys m.sessions := dlookup_mem_keys hs
  have hnotflag : sid ∉ cleanup_flag m now := by
    intro hin
    obtain ⟨e, hemem, hefst⟩ := List.mem_map.mp hin
    have hpred := (List.mem_filter.mp hemem).2
    have hlmem : (sid, e.2) ∈ m.sessions := by
      have : e = (sid, e.2) := Prod.ext hefst rfl
      exact this ▸ (List.mem_filter.mp hemem).1
    have : dlookup sid m.sessions = some e.2 := dlookup_of_mem_nodup hnd hlmem
    rw [hs] at this
    have he2 : e.2 = s := (Option.some.inj this).symm ▸ rfl
    rw [he2] at hpred
    exact absurd (by simpa using hpred) (Nat.not_lt.mpr hfresh)
  unfold cleanup_idle_sessions
  revert hmem
  generalize cleanup_flag m now = flagged at hnotflag
  clear hs hfresh hnd
  induction flagged generalizing m with
  | nil => intro hmem; exact hmem
  | cons f rest ih =>
    intro hmem
    have hne : sid ≠ f := fun hc => hnotflag (hc ▸ List.mem_cons_self f rest)
    have hnotrest : sid ∉ rest := fun hc => hnotflag (List.mem_cons_of_mem f hc)
    have hstep : sid ∈ keys ((close_session m f).1).sessions := by
      unfold close_session
      cases dlookup f m.sessions with
      | none => exact hmem
      | some _ => exact mem_keys_derase_of_ne hne hmem
    exact ih _ hnotrest hstep

/-- Witness for the amended C5: a session used at time 15 against TTL
10 is still registered after the time-20 cleanup pass. -/
theorem c5_witness :
    "s1" ∈ keys (cleanup_idle_sessions
      ⟨[("s1", { idle_session with
                   info := { idle_session.info with last_used := 15 } })], 10, 10⟩
      20).sessions :=
  c5_session_within_ttl_at_snapshot_survives
    ⟨[("s1", { idle_session with
                 info := { idle_session.info with last_used := 15 } })], 10, 10⟩
    "s1" { idle_session with info := { idle_session.info with last_used := 15 } }
    20 (by decide) (by decide) (by decide)

/-- Counterexample to claim C6.  There is no session state machine and
no SessionClosed error in the code: after `close`, looking up a page
that was open fails with the page `KeyError` (PageNotFound, because
`_pages` was cleared), not with SessionClosed. -/
theorem c6_after_close_errors_are_not_session_closed :
    demo_session.get_page "p1" = Except.ok page_ok ∧
    (demo_session.close).state.get_page "p1" = Except.error Err.pageNotFound ∧
    (demo_session.close).state.get_page "p1" ≠ Except.error Err.sessionClosed := by
  decide

/-- Claim C6 as amended: the code keeps no Ready/Closing/Closed state
and never raises SessionClosed.  After `close`, `get_page` on any id
fails with PageNotFound (the live-handle map was cleared), and
`new_page` is not rejected at all — it is delegated to the stale driver
context and records the new page as usual. -/
theorem c6_closed_session_operations (s : BrowserSession) (page_id : String)
    (pg : Page) (pid2 : String) (now : Nat) :
    (BrowserSession.close s).state.get_page page_id = Except.error Err.pageNotFound ∧
    ((BrowserSession.close s).state.new_page pg pid2 now).2 = pid2 ∧
    dlookup pid2 ((BrowserSession.close s).state.new_page pg pid2 now).1._pages
      = some pg := by
  refine ⟨rfl, rfl, ?_⟩
  simp [BrowserSession.close, BrowserSession.new_page, dlookup_dinsert_self]

/-- Counterexample to claim C7.  `close_page` never reads the clock and
never writes `last_used`: closing page "p1" of `demo_session` (stale at
5) succeeds, and at whatever later wall time the close happens —
e.g. 9 — `last_used` still reads the stale 5, refuting "updated on
every page closing". -/
theorem c7_close_page_does_not_touch_last_used :
    demo_session.info.last_used = 5 ∧
    (demo_session.close_page "p1").2 = Except.ok () ∧
    (demo_session.close_page "p1").1.info.last_used = 5 ∧
    ¬ (demo_session.close_page "p1").1.info.last_used = 9 := by
  decide

/-- Claim C7 as amended: `last_used` is set to the current time by
`new_page` and (on every path, including a failed title read) by
`update_page_info`, so it is monotone whenever the clock is; a freshly
created session has `last_used = created_at`; `created_at` is never
changed; but `close_page` leaves `last_used` untouched — page closing
is NOT one of the updating operations. -/
theorem c7_last_used_monotone_but_not_on_close (s : BrowserSession) (pg : Page)
    (pid : String) (now : Nat) (h : s.info.last_used ≤ now) :
    ((s.new_page pg pid now).1.info.last_used = now ∧
     (s.new_page pg pid now).1.info.created_at = s.info.created_at) ∧
    (s.info.last_used ≤ (s.update_page_info pid now).1.info.last_used ∧
     (s.update_page_info pid now).1.info.created_at = s.info.created_at) ∧
    ((s.close_page pid).1.info.last_used = s.info.last_used ∧
     (s.close_page pid).1.info.created_at = s.info.created_at) ∧
    (fresh_session pid now none none none none none).info.last_used
      = (fresh_session pid now none none none none none).info.created_at ∧
    (s.info.created_at ≤ s.info.last_used →
      s.info.created_at ≤ (s.new_page pg pid now).1.info.last_used ∧
      s.info.created_at ≤ (s.update_page_info pid now).1.info.last_used ∧
      s.info.created_at ≤ (s.close_page pid).1.info.last_used) := by
  have hup : s.info.last_used ≤ (s.update_page_info pid now).1.info.last_used ∧
      (s.update_page_info pid now).1.info.created_at = s.info.created_at := by
    cases hq : dlookup pid s._pages with
    | none => simp [BrowserSession.update_page_info, hq]
    | some p =>
      by_cases h2 : (dlookup pid s.info.pages).isSome <;>
        simp [BrowserSession.update_page_info, hq, h2, h]
  have hcp : (s.close_page pid).1.info.last_used = s.info.last_used ∧
      (s.close_page pid).1.info.created_at = s.info.created_at := by
    cases hq : dlookup pid s._pages with
    | none => simp [BrowserSession.close_page, hq]
    | some p =>
      cases hf : p.closeFails <;> simp [BrowserSession.close_page, hq, hf]
  refine ⟨⟨rfl, rfl⟩, hup, hcp, rfl, ?_⟩
  intro hc
  exact ⟨le_trans hc h, le_trans hc hup.1, hcp.1 ▸ hc⟩

/-- Witness for the amended C7 at `demo_session` and clock value 9. -/
theorem c7_witness :
    (demo_session.new_page page_ok "p1" 9).1.info.last_used = 9 ∧
    demo_session.info.last_used
      ≤ (demo_session.update_page_info "p1" 9).1.info.last_used ∧
    (demo_session.close_page "p1").1.info.last_used = demo_session.info.last_used := by
  have h := c7_last_used_monotone_but_not_on_close demo_session page_ok "p1" 9 (by decide)
  exact ⟨h.1.1, h.2.1.1, h.2.2.1.1⟩

/-- Counterexample to claim C8.  Two DELETE handlers racing on the same
session both pass the existence check before either removes the entry;
`SessionManager.close_session` silently no-ops when the pop finds
nothing and the router answers 200 regardless, so BOTH callers observe
a successful close — the claim says one of them observes NotFound. -/
theorem c8_racing_closes_both_observe_success :
    (drun "s1" [DEv.valA, DEv.valB, DEv.closeA, DEv.closeB] d8_init).taskA
      = DTask.done (Except.ok ()) ∧
    (drun "s1" [DEv.valA, DEv.valB, DEv.closeA, DEv.closeB] d8_init).taskB
      = DTask.done (Except.ok ()) ∧
    (drun "s1" [DEv.valA, DEv.valB, DEv.closeA, DEv.closeB] d8_init).teardowns = 1 := by
  decide

theorem dstep_preserves_single_teardown (sid : String) (st : DState) (e : DEv)
    (h : st.teardowns + st.mgr.sessions.length ≤ 1) :
    (dstep sid st e).teardowns + (dstep sid st e).mgr.sessions.length ≤ 1 := by
  cases e with
  | valA => simpa [dstep] using h
  | valB => simpa [dstep] using h
  | closeA =>
    cases ht : st.taskA with
    | start => simpa [dstep, dclose, ht] using h
    | done r => simpa [dstep, dclose, ht] using h
    | validated =>
      cases hq : dlookup sid st.mgr.sessions with
      | none => simpa [dstep, dclose, ht, close_session, hq] using h
      | some s0 =>
        have hlen := derase_length_of_dlookup hq
        simp [dstep, dclose, ht, close_session, hq]
        omega
  | closeB =>
    cases ht : st.taskB with
    | start => simpa [dstep, dclose, ht] using h
    | done r => simpa [dstep, dclose, ht] using h
    | validated =>
      cases hq : dlookup sid st.mgr.sessions with
      | none => simpa [dstep, dclose, ht, close_session, hq] using h
      | some s0 =>
        have hlen := derase_length_of_dlookup hq
        simp [dstep, dclose, ht, close_session, hq]
        omega

theorem drun_single_teardown (sid : String) :
    ∀ (evs : List DEv) (st : DState), st.teardowns + st.mgr.sessions.length ≤ 1 →
      (drun sid evs st).teardowns + (drun sid evs st).mgr.sessions.length ≤ 1 := by
  intro evs
  induction evs with
  | nil => intro st h; exact h
  | cons e rest ih =>
    intro st h
    exact ih (dstep sid st e) (dstep_preserves_single_teardown sid st e h)

/-- Claim C8 as amended: the atomic pop inside `close_session` ensures
the teardown runs at most once under EVERY schedule of the two racing
close endpoints (and nothing crashes — every schedule just runs), and a
strictly sequential double close does observe success then NotFound;
only the racing loser's NotFound is not delivered — it observes success
instead (see the counterexample). -/
theorem c8_teardown_at_most_once :
    (∀ evs : List DEv, (drun "s1" evs d8_init).teardowns ≤ 1) ∧
    (drun "s1" [DEv.valA, DEv.closeA, DEv.valB, DEv.closeB] d8_init).taskA
      = DTask.done (Except.ok ()) ∧
    (drun "s1" [DEv.valA, DEv.closeA, DEv.valB, DEv.closeB] d8_init).taskB
      = DTask.done (Except.error Err.sessionNotFound) := by
  refine ⟨?_, by decide, by decide⟩
  intro evs
  have h := drun_single_teardown "s1" evs d8_init (by decide)
  omega

/-- Claim C9: `update_page_info` on an open page always overwrites the
record's url from the live handle; the title is updated only when the
driver's title read succeeds and is retained otherwise; and
`last_used` is set to the current time in every case, including the
failed title read. -/
theorem c9_update_page_info_contract (s : BrowserSession)
    (page_id : String) (p : Page) (r : PageInfo) (now : Nat)
    (hp : dlookup page_id s._pages = some p)
    (hr : dlookup page_id s.info.pages = some r) :
    (s.update_page_info page_id now).2 = Except.ok () ∧
    (s.update_page_info page_id now).1.info.last_used = now ∧
    dlookup page_id (s.update_page_info page_id now).1.info.pages
      = some { r with url := p.url,
                      title := match p.titleResult with
                               | some t => t
                               | none => r.title } := by
  have hsome : (dlookup page_id s.info.pages).isSome := by rw [hr]; rfl
  simp [BrowserSession.update_page_info, hp, hsome, dlookup_dmodify_self _ hr]

/-- Witness for C9 at `demo_session`'s page "p2", whose title read
fails: the url is overwritten, the old title "old" is retained, and
`last_used` becomes 9. -/
theorem c9_witness :
    (demo_session.update_page_info "p2" 9).2 = Except.ok () ∧
    (demo_session.update_page_info "p2" 9).1.info.last_used = 9 ∧
    dlookup "p2" (demo_session.update_page_info "p2" 9).1.info.pages
      = some { page_id := "p2", url := "https://example.com/b", title := "old",
               created_at := 3 } := by
  have h := c9_update_page_info_contract demo_session "p2" page_bad pinfo_b 9
    (by decide) (by decide)
  exact ⟨h.1, h.2.1, h.2.2⟩

theorem apply_op_preserves_keys (s : BrowserSession) (op : SOp)
    (h : keys s._pages = keys s.info.pages) :
    keys (apply_op s op)._pages = keys (apply_op s op).info.pages := by
  cases op with
  | newPage pg pid now =>
    simpa [apply_op, BrowserSession.new_page] using
      keys_dinsert_congr pid pg ⟨pid, pg.url, "", now⟩ s._pages s.info.pages h
  | closePage pid =>
    cases hq : dlookup pid s._pages with
    | none => simpa [apply_op, BrowserSession.close_page, hq] using h
    | some p =>
      cases hf : p.closeFails with
      | true => simpa [apply_op, BrowserSession.close_page, hq, hf] using h
      | false =>
        simpa [apply_op, BrowserSession.close_page, hq, hf] using
          keys_derase_congr pid s._pages s.info.pages h
  | updateInfo pid now =>
    cases hq : dlookup pid s._pages with
    | none => simpa [apply_op, BrowserSession.update_page_info, hq] using h
    | some p =>
      by_cases h2 : (dlookup pid s.info.pages).isSome
      · simpa [apply_op, BrowserSession.update_page_info, hq, h2, keys_dmodify]
          using h
      · simpa [apply_op, BrowserSession.update_page_info, hq, h2] using h

/-- Claim C10: starting from any session whose live-handle map and
record map have the same keys (as every session has at construction,
both being empty), any sequence of `new_page`, `close_page` and
`update_page_info` operations preserves that key agreement: `new_page`
inserts the same fresh id into both maps, a successful `close_page`
removes it from both, a failed one changes neither, and
`update_page_info` touches no keys. -/
theorem c10_page_maps_keys_agree (s : BrowserSession) (ops : List SOp)
    (h : keys s._pages = keys s.info.pages) :
    keys (run_ops s ops)._pages = keys (run_ops s ops).info.pages := by
  induction ops generalizing s with
  | nil => exact h
  | cons op rest ih => exact ih (apply_op s op) (apply_op_preserves_keys s op h)

/-- Witness for C10: a mixed operation sequence on `demo_session`
(create "p3", close "p1", refresh "p2", failing close of "p2") keeps
the two key sets equal. -/
theorem c10_witness :
    keys (run_ops demo_session [SOp.newPage page_ok "p3" 6, SOp.closePage "p1",
      SOp.updateInfo "p2" 7, SOp.closePage "p2"])._pages
      = keys (run_ops demo_session [SOp.newPage page_ok "p3" 6, SOp.closePage "p1",
          SOp.updateInfo "p2" 7, SOp.closePage "p2"]).info.pages :=
  c10_page_maps_keys_agree demo_session [SOp.newPage page_ok "p3" 6,
    SOp.closePage "p1", SOp.updateInfo "p2" 7, SOp.closePage "p2"] (by decide)

end CloakBrowser
